import Mathlib

/-!
Verification of the SleepCycle-Alarm frontend (TheRightAClock).

This file shallowly embeds the client-side logic of `frontend/app.js`
(the variant with countdown timers, notifications and calendar export):

* `validateFormData`  — the form validator;
* `getTimeUntilBedtime` — the countdown computation with its 12-hour
  midnight-wraparound heuristic;
* `updateCountdown` / `countdownTicks` — one countdown tick and the
  per-candidate `setInterval` loop, including interval cancellation;
* `displayResultsTimers` / `createResultCardTimer` — the mutation of the
  `countdownIntervals` mapping and the set of live interval handles;
* `calculateBedtimes` — the network-call wrapper with its 60 s abort and
  error-message taxonomy, over an explicit fetch-outcome event model;
* `generateICSFile` — the numeric content of the exported calendar record.

JavaScript machine conventions used throughout:

* Times are integer milliseconds on a timeline whose origin is a local
  midnight; the browser clock is passed in explicitly as `now`, so
  `now - now % 86400000` is the midnight of the current day and
  `Date.setHours` / `setDate` arithmetic lives on that integer timeline
  (the JavaScript dates in play carry whole milliseconds; no DST, as the
  spec's time model assumes).
* `Math.floor` of a quotient is `Int.fdiv` (the intermediate float
  divisions by 1000 and 60 cannot cross an integer boundary at these
  magnitudes); the JavaScript `%` operator is `Int.tmod` (remainder with
  the dividend's sign).
* `parseInt` on a form field yields either an integer or `NaN`; every
  comparison against `NaN` is false.  This is the `JSNum` type below.
* A JavaScript string is falsy exactly when it is empty.
-/

/-! ## Data model: form input and validation -/

/-- A JavaScript number as produced by `parseInt` on a form field:
either `NaN` or an integer. -/
inductive JSNum where
  | nan : JSNum
  | int (v : Int) : JSNum
deriving DecidableEq

/-- JavaScript `<` on numbers: any comparison involving `NaN` is false. -/
def JSNum.lt : JSNum → JSNum → Bool
  | JSNum.int a, JSNum.int b => decide (a < b)
  | _, _ => false

/-- JavaScript `>` on numbers: any comparison involving `NaN` is false. -/
def JSNum.gt : JSNum → JSNum → Bool
  | JSNum.int a, JSNum.int b => decide (a > b)
  | _, _ => false

/-- The object returned by `getFormData`: the raw `wake-time` string and
the four `parseInt`-converted numeric fields. -/
structure FormData where
  wake_time : String
  sleep_latency_min : JSNum
  cycle_length_min : JSNum
  min_cycles : JSNum
  max_cycles : JSNum
deriving DecidableEq

/-- The object returned by `validateFormData`:
`{valid: boolean, error?: string}`. -/
structure ValidationResult where
  valid : Bool
  error : Option String
deriving DecidableEq

/-- Embedding of `validateFormData` (app.js).  `!data.wake_time` is the
emptiness test (the empty string is the only falsy string); each range
test uses the `NaN`-aware comparisons, and the checks short-circuit in
source order. -/
def validateFormData (data : FormData) : ValidationResult :=
  if data.wake_time = "" then
    { valid := false, error := some "Please enter a wake time" }
  else if data.sleep_latency_min.lt (JSNum.int 0) || data.sleep_latency_min.gt (JSNum.int 60) then
    { valid := false, error := some "Sleep latency must be between 0 and 60 minutes" }
  else if data.cycle_length_min.lt (JSNum.int 60) || data.cycle_length_min.gt (JSNum.int 110) then
    { valid := false, error := some "Cycle length must be between 60 and 110 minutes" }
  else if data.min_cycles.lt (JSNum.int 1) || data.min_cycles.gt (JSNum.int 10) then
    { valid := false, error := some "Min cycles must be between 1 and 10" }
  else if data.max_cycles.lt (JSNum.int 1) || data.max_cycles.gt (JSNum.int 10) then
    { valid := false, error := some "Max cycles must be between 1 and 10" }
  else if data.min_cycles.gt data.max_cycles then
    { valid := false, error := some "Min cycles must be less than or equal to max cycles" }
  else
    { valid := true, error := none }

/-! ## Countdown time model -/

/-- One day in milliseconds. -/
def msPerDay : Int := 86400000

/-- One minute in milliseconds. -/
def msPerMinute : Int := 60000

/-- `String.prototype.split` with a single-character separator, on the
character list of the string: `""` splits to one empty field, and every
occurrence of the separator opens a new field. -/
def splitOnChar (sep : Char) : List Char → List (List Char)
  | [] => [[]]
  | c :: cs =>
    let rest := splitOnChar sep cs
    if c = sep then [] :: rest
    else (c :: rest.headD []) :: rest.tail

/-- Accumulator loop of `jsNumberInt`: consume decimal digits. -/
def decDigitsToNat : List Char → Nat → Option Nat
  | [], acc => some acc
  | c :: cs, acc =>
    if '0' ≤ c ∧ c ≤ '9' then decDigitsToNat cs (acc * 10 + (c.toNat - '0'.toNat))
    else none

/-- The JavaScript `Number` coercion as used on the fields of an
`"HH:MM"` split: the value of a non-empty all-decimal-digit numeral,
`none` otherwise.  (`Number` itself maps `""` to `0` and signed, spaced
or non-decimal forms to other values; no claim exercises such fields,
and every consumer here treats `none` as `Number`'s `NaN` outcome.) -/
def jsNumberInt : List Char → Option Int
  | [] => none
  | c :: cs => (decDigitsToNat (c :: cs) 0).map Int.ofNat

/-- `bedtime.split(":").map(Number)` followed by the destructuring
`const [hours, minutes] = ...`: the first two fields of the split,
`none` when either is missing or not a plain decimal numeral. -/
def parseHHMM (s : String) : Option (Int × Int) :=
  match (splitOnChar ':' s.toList).map jsNumberInt with
  | some h :: some m :: _ => some (h, m)
  | _ => none

/-- The result object of `getTimeUntilBedtime`:
`{ hours, minutes, totalMinutes, isPast }`. -/
structure TimeUntil where
  hours : Int
  minutes : Int
  totalMinutes : Int
  isPast : Bool
deriving DecidableEq

/-- The wraparound adjustment inside `getTimeUntilBedtime`: if `diff` is
negative by strictly less than 12 hours
(`diff < 0 && diff > -12 * 60 * 60 * 1000`), add 24 hours, else keep it. -/
def adjustDiff (diff : Int) : Int :=
  if diff < 0 ∧ diff > -(12 * 60 * 60 * 1000) then diff + msPerDay else diff

/-- Embedding of `getTimeUntilBedtime` (app.js): `bedtimeDate` is today's
midnight plus the parsed clock offset; `diff` is `bedtimeDate - now`
after the `adjustDiff` wraparound; `totalMinutes` is
`Math.floor(diff / 1000 / 60)`; `hours`/`minutes` use `Math.floor` and
the JavaScript `%`. -/
def getTimeUntilBedtime (now : Int) (bedtime : String) : Option TimeUntil :=
  match parseHHMM bedtime with
  | none => none
  | some (hours, minutes) =>
    let diff := adjustDiff ((now - Int.emod now msPerDay) + (hours * 60 + minutes) * msPerMinute - now)
    let totalMinutes := Int.fdiv diff msPerMinute
    some { hours := Int.fdiv totalMinutes 60
           minutes := Int.tmod totalMinutes 60
           totalMinutes := totalMinutes
           isPast := decide (totalMinutes < 0) }

/-- How far today's occurrence of the clock time `h:m` lies ahead of
`now` (negative when it already lies behind), in milliseconds. -/
def msUntilToday (now h m : Int) : Int :=
  (h * 60 + m) * msPerMinute - Int.emod now msPerDay

/-! ## Countdown engine: one tick, and the interval loop -/

/-- The three display states `updateCountdown` writes. -/
inductive CountdownDisplay where
  | past
  | due
  | active (hours minutes : Int)
deriving DecidableEq

/-- What one call of `updateCountdown` does: the display it writes,
whether a browser notification was actually created, and its return
value (`true` to keep the interval running). -/
structure CountdownStep where
  display : CountdownDisplay
  notified : Bool
  shouldContinue : Bool
deriving DecidableEq

/-- `sendBedtimeNotification` creates a `Notification` exactly when
`notificationPermission === "granted"`; the result says whether one was
created. -/
def sendBedtimeNotification (permissionGranted : Bool) : Bool :=
  permissionGranted

/-- Embedding of `updateCountdown` (app.js): past stops the countdown
without notifying; `totalMinutes === 0` notifies (via
`sendBedtimeNotification`) and stops; otherwise the countdown continues.
`none` when the bedtime fails to parse. -/
def updateCountdown (permissionGranted : Bool) (now : Int) (bedtime : String) :
    Option CountdownStep :=
  (getTimeUntilBedtime now bedtime).map fun r =>
    if r.isPast then
      { display := CountdownDisplay.past, notified := false, shouldContinue := false }
    else if r.totalMinutes = 0 then
      { display := CountdownDisplay.due
        notified := sendBedtimeNotification permissionGranted
        shouldContinue := false }
    else
      { display := CountdownDisplay.active r.hours r.minutes
        notified := false
        shouldContinue := true }

/-- The `setInterval` loop attached by `createResultCard` to one
candidate, run over a list of tick instants: while the interval is
alive each tick runs `updateCountdown`, and a `false` return clears the
interval so later ticks do nothing.  The result counts the browser
notifications created.  (A tick on an unparseable bedtime keeps the
interval alive and notifies nothing, as the JavaScript `NaN` arithmetic
does.) -/
def countdownTicks (permissionGranted : Bool) (bedtime : String) :
    List Int → Bool → Nat
  | [], _ => 0
  | _ :: ts, false => countdownTicks permissionGranted bedtime ts false
  | t :: ts, true =>
    match updateCountdown permissionGranted t bedtime with
    | none => countdownTicks permissionGranted bedtime ts true
    | some step =>
      (if step.notified then 1 else 0) +
        countdownTicks permissionGranted bedtime ts step.shouldContinue

/-! ## Countdown interval bookkeeping -/

/-- The timer-relevant global state: the `countdownIntervals` object
(bedtime string → interval id, unique keys), the live interval handles
together with the bedtime each callback serves, and the next fresh
handle `setInterval` will return. -/
structure TimerState where
  countdownIntervals : List (String × Nat)
  live : List (Nat × String)
  nextId : Nat
deriving DecidableEq

/-- JavaScript object key assignment `obj[k] = v`: replaces any existing
binding for `k`. -/
def setKey (m : List (String × Nat)) (k : String) (v : Nat) : List (String × Nat) :=
  (m.filter fun p => p.1 != k) ++ [(k, v)]

/-- The timer effect of `createResultCard`: `setInterval` returns a
fresh live handle whose callback serves `bedtime`, then
`countdownIntervals[option.bedtime] = intervalId` overwrites any
previous binding for the same bedtime string (the previous handle, if
any, stays live). -/
def createResultCardTimer (s : TimerState) (bedtime : String) : TimerState :=
  { countdownIntervals := setKey s.countdownIntervals bedtime s.nextId
    live := s.live ++ [(s.nextId, bedtime)]
    nextId := s.nextId + 1 }

/-- The interval bookkeeping prefix of `displayResults`:
`Object.values(countdownIntervals).forEach(clearInterval)` then
`countdownIntervals = {}`.  Only handles recorded in the mapping are
cleared. -/
def clearAllIntervals (s : TimerState) : TimerState :=
  { countdownIntervals := []
    live := s.live.filter fun p => !(s.countdownIntervals.any fun q => q.2 == p.1)
    nextId := s.nextId }

/-- The timer effect of `displayResults` on a response whose options
carry the given bedtime strings: clear everything recorded, then create
one card (and one interval) per option, in order. -/
def displayResultsTimers (s : TimerState) (bedtimes : List String) : TimerState :=
  bedtimes.foldl createResultCardTimer (clearAllIntervals s)

/-- Number of live interval timers whose callback serves bedtime `b`. -/
def liveTimersFor (s : TimerState) (b : String) : Nat :=
  (s.live.filter fun p => p.2 == b).length

/-! ## Network call: `calculateBedtimes` -/

/-- A JavaScript `Error` as far as `calculateBedtimes` inspects it:
its `name` and its `message`. -/
structure JSError where
  name : String
  message : String
deriving DecidableEq

/-- The client timeout: `setTimeout(() => controller.abort(), 60000)`. -/
def REQUEST_TIMEOUT_MS : Nat := 60000

/-- How the awaited `fetch` settles, as an explicit event: a response
(with HTTP status and the `detail` field of its parsed error body)
arriving `arrival` ms after the request; a network failure
(`TypeError: Failed to fetch`) after `arrival` ms; or no settlement at
all (the server hangs).  The abort timer fires at 60000 ms, so a
settlement at or after 60000 ms is preempted by the `AbortError`. -/
inductive FetchOutcome where
  | response (arrival : Nat) (status : Nat) (detail : Option String)
  | networkFailure (arrival : Nat)
  | noSettlement
deriving DecidableEq

/-- What the caller of `calculateBedtimes` observes: the parsed success
response (represented by its 2xx status) or a thrown error message. -/
inductive CalcOutcome where
  | success (status : Nat)
  | failure (message : String)
deriving DecidableEq

/-- JavaScript `a || b` where `a` is a string field that may be absent:
`b` when `a` is absent or empty (falsy), else `a`. -/
def jsStringOr (a : Option String) (b : String) : String :=
  match a with
  | some s => if s = "" then b else s
  | none => b

/-- Is the first character list a prefix of the second? -/
def isPrefixOfChars : List Char → List Char → Bool
  | [], _ => true
  | _ :: _, [] => false
  | c :: cs, d :: ds => c == d && isPrefixOfChars cs ds

/-- Does the first character list occur contiguously in the second? -/
def isInfixOfChars (pat : List Char) : List Char → Bool
  | [] => isPrefixOfChars pat []
  | c :: ds => isPrefixOfChars pat (c :: ds) || isInfixOfChars pat ds

/-- `String.prototype.includes`: substring test, on character lists. -/
def jsIncludes (s pat : String) : Bool :=
  isInfixOfChars pat.toList s.toList

/-- The `try` block of `calculateBedtimes`: await the fetch, check
`response.ok` (status 200–299), and on a non-ok response throw
`new Error(errorData.detail || "API error: <status>")`.  A settlement
at `arrival ≥ 60000` means the abort fired first and the await rejects
with an `AbortError`. -/
def fetchAndCheck (ev : FetchOutcome) : Except JSError Nat :=
  match ev with
  | FetchOutcome.noSettlement =>
    Except.error { name := "AbortError", message := "The operation was aborted" }
  | FetchOutcome.networkFailure arrival =>
    if arrival < REQUEST_TIMEOUT_MS then
      Except.error { name := "TypeError", message := "Failed to fetch" }
    else
      Except.error { name := "AbortError", message := "The operation was aborted" }
  | FetchOutcome.response arrival status detail =>
    if arrival < REQUEST_TIMEOUT_MS then
      if 200 ≤ status ∧ status ≤ 299 then
        Except.ok status
      else
        Except.error { name := "Error"
                       message := jsStringOr detail ("API error: " ++ toString status) }
    else
      Except.error { name := "AbortError", message := "The operation was aborted" }

/-- The cold-start timeout message thrown on abort. -/
def timeoutMessage : String :=
  "Request timeout. The server might be waking up (can take 30-60 seconds on free hosting). Please try again."

/-- The connectivity message thrown on a pre-response network failure. -/
def connectivityMessage : String :=
  "Cannot connect to server. It might be waking up from sleep (takes 30-60 seconds on free hosting). Please wait and try again."

/-- Embedding of `calculateBedtimes` (app.js): the `try` block above,
then the `catch` clause, which maps an `AbortError` to the timeout
message, a `Failed to fetch` / `NetworkError` message to the
connectivity message, and rethrows anything else. -/
def calculateBedtimes (ev : FetchOutcome) : CalcOutcome :=
  match fetchAndCheck ev with
  | Except.ok status => CalcOutcome.success status
  | Except.error e =>
    if e.name = "AbortError" then
      CalcOutcome.failure timeoutMessage
    else if e.message = "Failed to fetch" || jsIncludes e.message "NetworkError" then
      CalcOutcome.failure connectivityMessage
    else
      CalcOutcome.failure e.message

/-! ## Calendar export: `generateICSFile` -/

/-- The numeric content of the exported `.ics` record: the four instants
serialized as DTSTAMP, DTSTART, DTEND and the alarm trigger (the
literal `TRIGGER:-PT15M`, i.e. 15 minutes before DTSTART), plus the
cycle count shown in the summary. -/
structure ICSRecord where
  dtstamp : Int
  dtstart : Int
  dtend : Int
  alarm : Int
  cycles : Nat
deriving DecidableEq

/-- Embedding of the date arithmetic of `generateICSFile` (app.js):
`bedtimeDate` is today's occurrence of the bedtime clock value, pushed
to tomorrow when already strictly past `now`; `wakeTimeDate` is
`setDate(+1)` then `setHours(wake)` — one day past the midnight of
`bedtimeDate`'s day, plus the wake clock offset; `alarmDate` is
`setMinutes(-15)` from `bedtimeDate`. -/
def generateICSFile (now : Int) (bedtime wakeTime : String) (cycles : Nat) :
    Option ICSRecord :=
  match parseHHMM bedtime, parseHHMM wakeTime with
  | some (bedHours, bedMinutes), some (wakeHours, wakeMinutes) =>
    let bedtimeDate0 := (now - Int.emod now msPerDay) + (bedHours * 60 + bedMinutes) * msPerMinute
    let bedtimeDate := if bedtimeDate0 < now then bedtimeDate0 + msPerDay else bedtimeDate0
    let wakeTimeDate := (bedtimeDate - Int.emod bedtimeDate msPerDay) + msPerDay +
      (wakeHours * 60 + wakeMinutes) * msPerMinute
    let alarmDate := bedtimeDate - 15 * msPerMinute
    some { dtstamp := now, dtstart := bedtimeDate, dtend := wakeTimeDate
           alarm := alarmDate, cycles := cycles }
  | _, _ => none

/-! ## Theorems -/

/-- C1: for a form input with non-empty wake time and numeric (non-`NaN`)
fields, `validateFormData` returns valid exactly when the latency is in
[0,60], the cycle length in [60,110], min and max cycles each in [1,10],
and min ≤ max — all bounds inclusive.  (`NaN` fields are the subject of
the separate C10 theorem.) -/
theorem c1_validateFormData_valid_iff (w : String) (a b c d : Int)
    (hw : w ≠ "") :
    (validateFormData ⟨w, JSNum.int a, JSNum.int b, JSNum.int c, JSNum.int d⟩).valid = true ↔
      (0 ≤ a ∧ a ≤ 60 ∧ 60 ≤ b ∧ b ≤ 110 ∧
       1 ≤ c ∧ c ≤ 10 ∧ 1 ≤ d ∧ d ≤ 10 ∧ c ≤ d) := by
  simp only [validateFormData, JSNum.lt, JSNum.gt, hw, if_false]
  split_ifs with h1 h2 h3 h4 h5 <;>
    simp_all <;> omega

/-- C1 witness: boundary input latency 0, cycle length 60, cycles 1..10. -/
theorem c1_validateFormData_valid_iff_witness :
    ("07:30" : String) ≠ "" ∧
      ((validateFormData ⟨"07:30", JSNum.int 0, JSNum.int 60, JSNum.int 1, JSNum.int 10⟩).valid = true ↔
        (0 ≤ (0 : Int) ∧ (0 : Int) ≤ 60 ∧ 60 ≤ (60 : Int) ∧ (60 : Int) ≤ 110 ∧
         1 ≤ (1 : Int) ∧ (1 : Int) ≤ 10 ∧ 1 ≤ (10 : Int) ∧ (10 : Int) ≤ 10 ∧ (1 : Int) ≤ 10)) :=
  ⟨by decide, c1_validateFormData_valid_iff "07:30" 0 60 1 10 (by decide)⟩

/-- On all-integer inputs the validator's `Bool` range tests coincide with
the corresponding propositional range conditions, check by check. -/
theorem validateFormData_int (w : String) (a b c d : Int) :
    validateFormData ⟨w, JSNum.int a, JSNum.int b, JSNum.int c, JSNum.int d⟩ =
      if w = "" then ⟨false, some "Please enter a wake time"⟩
      else if a < 0 ∨ 60 < a then ⟨false, some "Sleep latency must be between 0 and 60 minutes"⟩
      else if b < 60 ∨ 110 < b then ⟨false, some "Cycle length must be between 60 and 110 minutes"⟩
      else if c < 1 ∨ 10 < c then ⟨false, some "Min cycles must be between 1 and 10"⟩
      else if d < 1 ∨ 10 < d then ⟨false, some "Max cycles must be between 1 and 10"⟩
      else if d < c then ⟨false, some "Min cycles must be less than or equal to max cycles"⟩
      else ⟨true, none⟩ := by
  simp only [validateFormData, JSNum.lt, JSNum.gt, Bool.or_eq_true, decide_eq_true_eq, gt_iff_lt]

/-- C9: the validator runs its checks in source order and short-circuits,
so the reported reason is the message of the first failing check: wake
time presence, then latency range, then cycle-length range, then
min-cycles range, then max-cycles range, then min ≤ max. -/
theorem c9_validateFormData_first_failure (w : String) (a b c d : Int) :
    (w = "" →
      (validateFormData ⟨w, JSNum.int a, JSNum.int b, JSNum.int c, JSNum.int d⟩).error =
        some "Please enter a wake time") ∧
    (w ≠ "" → ¬(0 ≤ a ∧ a ≤ 60) →
      (validateFormData ⟨w, JSNum.int a, JSNum.int b, JSNum.int c, JSNum.int d⟩).error =
        some "Sleep latency must be between 0 and 60 minutes") ∧
    (w ≠ "" → (0 ≤ a ∧ a ≤ 60) → ¬(60 ≤ b ∧ b ≤ 110) →
      (validateFormData ⟨w, JSNum.int a, JSNum.int b, JSNum.int c, JSNum.int d⟩).error =
        some "Cycle length must be between 60 and 110 minutes") ∧
    (w ≠ "" → (0 ≤ a ∧ a ≤ 60) → (60 ≤ b ∧ b ≤ 110) → ¬(1 ≤ c ∧ c ≤ 10) →
      (validateFormData ⟨w, JSNum.int a, JSNum.int b, JSNum.int c, JSNum.int d⟩).error =
        some "Min cycles must be between 1 and 10") ∧
    (w ≠ "" → (0 ≤ a ∧ a ≤ 60) → (60 ≤ b ∧ b ≤ 110) → (1 ≤ c ∧ c ≤ 10) → ¬(1 ≤ d ∧ d ≤ 10) →
      (validateFormData ⟨w, JSNum.int a, JSNum.int b, JSNum.int c, JSNum.int d⟩).error =
        some "Max cycles must be between 1 and 10") ∧
    (w ≠ "" → (0 ≤ a ∧ a ≤ 60) → (60 ≤ b ∧ b ≤ 110) → (1 ≤ c ∧ c ≤ 10) → (1 ≤ d ∧ d ≤ 10) →
      c > d →
      (validateFormData ⟨w, JSNum.int a, JSNum.int b, JSNum.int c, JSNum.int d⟩).error =
        some "Min cycles must be less than or equal to max cycles") := by
  refine ⟨?_, ?_, ?_, ?_, ?_, ?_⟩
  · intro h
    rw [validateFormData_int, if_pos h]
  · intro hw h
    rw [validateFormData_int, if_neg hw, if_pos (show a < 0 ∨ 60 < a by omega)]
  · intro hw h1 h
    rw [validateFormData_int, if_neg hw, if_neg (show ¬(a < 0 ∨ 60 < a) by omega),
      if_pos (show b < 60 ∨ 110 < b by omega)]
  · intro hw h1 h2 h
    rw [validateFormData_int, if_neg hw, if_neg (show ¬(a < 0 ∨ 60 < a) by omega),
      if_neg (show ¬(b < 60 ∨ 110 < b) by omega), if_pos (show c < 1 ∨ 10 < c by omega)]
  · intro hw h1 h2 h3 h
    rw [validateFormData_int, if_neg hw, if_neg (show ¬(a < 0 ∨ 60 < a) by omega),
      if_neg (show ¬(b < 60 ∨ 110 < b) by omega), if_neg (show ¬(c < 1 ∨ 10 < c) by omega),
      if_pos (show d < 1 ∨ 10 < d by omega)]
  · intro hw h1 h2 h3 h4 h
    rw [validateFormData_int, if_neg hw, if_neg (show ¬(a < 0 ∨ 60 < a) by omega),
      if_neg (show ¬(b < 60 ∨ 110 < b) by omega), if_neg (show ¬(c < 1 ∨ 10 < c) by omega),
      if_neg (show ¬(d < 1 ∨ 10 < d) by omega), if_pos (show d < c by omega)]

/-- C9 witness: cycle length 111 with an in-range latency and an
out-of-range cycle pair reports the cycle-length message first. -/
theorem c9_validateFormData_first_failure_witness :
    (validateFormData ⟨"07:30", JSNum.int 15, JSNum.int 111, JSNum.int 0, JSNum.int 12⟩).error =
      some "Cycle length must be between 60 and 110 minutes" :=
  (c9_validateFormData_first_failure "07:30" 15 111 0 12).2.2.1
    (by decide) (by decide) (by decide)

/-- A `NaN`-or-in-range field makes the corresponding `lo`/`hi` range
test of `validateFormData` evaluate to false. -/
theorem rangeCheckFalse (x : JSNum) (lo hi : Int)
    (h : x = JSNum.nan ∨ ∃ v, x = JSNum.int v ∧ lo ≤ v ∧ v ≤ hi) :
    (x.lt (JSNum.int lo) || x.gt (JSNum.int hi)) = false := by
  rcases h with rfl | ⟨v, rfl, h1, h2⟩
  · rfl
  · simp [JSNum.lt, JSNum.gt]
    omega

/-- A `NaN` on either side, or an actual `≤` between the integer values,
makes the validator's `min > max` test evaluate to false. -/
theorem pairCheckFalse (x y : JSNum)
    (h : x = JSNum.nan ∨ y = JSNum.nan ∨
      ∀ c d, x = JSNum.int c → y = JSNum.int d → c ≤ d) :
    x.gt y = false := by
  cases x with
  | nan => rfl
  | int c =>
    cases y with
    | nan => rfl
    | int d =>
      rcases h with h | h | h
      · exact absurd h (by simp)
      · exact absurd h (by simp)
      · have := h c d rfl rfl
        simp [JSNum.gt]
        omega

/-- C10: a `NaN` numeric field (as `parseInt` yields on a non-numeric
input) can never fail a range check, because every comparison against
`NaN` is false; so with a non-empty wake time and every non-`NaN` field
passing its check, the validator accepts. -/
theorem c10_validateFormData_nan_accepted (data : FormData)
    (hw : data.wake_time ≠ "")
    (ha : data.sleep_latency_min = JSNum.nan ∨
      ∃ a, data.sleep_latency_min = JSNum.int a ∧ 0 ≤ a ∧ a ≤ 60)
    (hb : data.cycle_length_min = JSNum.nan ∨
      ∃ b, data.cycle_length_min = JSNum.int b ∧ 60 ≤ b ∧ b ≤ 110)
    (hc : data.min_cycles = JSNum.nan ∨
      ∃ c, data.min_cycles = JSNum.int c ∧ 1 ≤ c ∧ c ≤ 10)
    (hd : data.max_cycles = JSNum.nan ∨
      ∃ d, data.max_cycles = JSNum.int d ∧ 1 ≤ d ∧ d ≤ 10)
    (hcd : data.min_cycles = JSNum.nan ∨ data.max_cycles = JSNum.nan ∨
      ∀ c d, data.min_cycles = JSNum.int c → data.max_cycles = JSNum.int d → c ≤ d) :
    (validateFormData data).valid = true := by
  have h1 := rangeCheckFalse _ 0 60 ha
  have h2 := rangeCheckFalse _ 60 110 hb
  have h3 := rangeCheckFalse _ 1 10 hc
  have h4 := rangeCheckFalse _ 1 10 hd
  have h5 := pairCheckFalse _ _ hcd
  simp [validateFormData, hw, h1, h2, h3, h4, h5]

/-- C10 witness: all four numeric fields `NaN` (every field blank) is
accepted outright. -/
theorem c10_validateFormData_nan_accepted_witness :
    (validateFormData ⟨"07:30", JSNum.nan, JSNum.nan, JSNum.nan, JSNum.nan⟩).valid = true :=
  c10_validateFormData_nan_accepted ⟨"07:30", JSNum.nan, JSNum.nan, JSNum.nan, JSNum.nan⟩
    (by decide) (Or.inl rfl) (Or.inl rfl) (Or.inl rfl) (Or.inl rfl) (Or.inl rfl)

/-- Closed form of `getTimeUntilBedtime` on a parseable bedtime. -/
theorem getTimeUntilBedtime_eq (now h m : Int) (s : String)
    (hp : parseHHMM s = some (h, m)) :
    getTimeUntilBedtime now s =
      some { hours := Int.fdiv (Int.fdiv (adjustDiff (msUntilToday now h m)) msPerMinute) 60
             minutes := Int.tmod (Int.fdiv (adjustDiff (msUntilToday now h m)) msPerMinute) 60
             totalMinutes := Int.fdiv (adjustDiff (msUntilToday now h m)) msPerMinute
             isPast := decide (Int.fdiv (adjustDiff (msUntilToday now h m)) msPerMinute < 0) } := by
  have harg : (now - Int.emod now msPerDay) + (h * 60 + m) * msPerMinute - now =
      msUntilToday now h m := by
    unfold msUntilToday; ring
  simp only [getTimeUntilBedtime, hp, harg]

/-- C2: the code evaluated on the spec's own wraparound scenario — the
candidate bedtime `"00:15"` at `22:00:00.000` the same evening
(79200000 ms past midnight).  Today's `00:15` lies 21 h 45 m behind,
beyond the 12-hour window of `adjustDiff`, so the code reports the
bedtime as past by 1305 minutes (`isPast = true`) instead of due
tonight in about 135 minutes as the spec's scenario requires and as
the code's own comment ("assume it's for tonight") intends. -/
theorem c2_wraparound_code_eval :
    getTimeUntilBedtime 79200000 "00:15" =
      some { hours := -22, minutes := -45, totalMinutes := -1305, isPast := true } := by
  decide

/-- C3: the wraparound rule implemented by `getTimeUntilBedtime`: when
today's occurrence of the bedtime lies behind `now` by strictly less
than 12 hours, 24 hours are added and the countdown targets tonight
(`isPast = false`); when it lies behind by 12 hours or more it is
genuinely past (`isPast = true`); when it does not lie behind, no
adjustment is made (`isPast = false`). -/
theorem c3_wraparound_rule (now : Int) (s : String) (h m : Int) (r : TimeUntil)
    (hp : parseHHMM s = some (h, m))
    (hr : getTimeUntilBedtime now s = some r) :
    ((msUntilToday now h m < 0 ∧ -(12 * 60 * 60 * 1000) < msUntilToday now h m) →
        r.totalMinutes = Int.fdiv (msUntilToday now h m + msPerDay) msPerMinute ∧
        r.isPast = false) ∧
    (msUntilToday now h m ≤ -(12 * 60 * 60 * 1000) →
        r.totalMinutes = Int.fdiv (msUntilToday now h m) msPerMinute ∧
        r.isPast = true) ∧
    (0 ≤ msUntilToday now h m →
        r.totalMinutes = Int.fdiv (msUntilToday now h m) msPerMinute ∧
        r.isPast = false) := by
  rw [getTimeUntilBedtime_eq now h m s hp] at hr
  obtain rfl : _ = r := Option.some.inj hr
  have hM : (0 : Int) ≤ msPerMinute := by norm_num [msPerMinute]
  refine ⟨?_, ?_, ?_⟩ <;> intro hc
  · rw [show adjustDiff (msUntilToday now h m) = msUntilToday now h m + msPerDay from
      if_pos ⟨hc.1, hc.2⟩]
    refine ⟨rfl, ?_⟩
    simp only [decide_eq_false_iff_not, not_lt, Int.fdiv_eq_ediv _ hM]
    simp only [msPerDay, msPerMinute] at *
    omega
  · rw [show adjustDiff (msUntilToday now h m) = msUntilToday now h m from
      if_neg (by omega)]
    refine ⟨rfl, ?_⟩
    simp only [decide_eq_true_eq, Int.fdiv_eq_ediv _ hM]
    simp only [msPerMinute] at *
    omega
  · rw [show adjustDiff (msUntilToday now h m) = msUntilToday now h m from
      if_neg (by omega)]
    refine ⟨rfl, ?_⟩
    simp only [decide_eq_false_iff_not, not_lt, Int.fdiv_eq_ediv _ hM]
    simp only [msPerMinute] at *
    omega

/-- C3 witness: `"00:15"` at `22:00` falls in the ≥ 12-hours-behind case
and is reported as genuinely past. -/
theorem c3_wraparound_rule_witness :
    (⟨-22, -45, -1305, true⟩ : TimeUntil).totalMinutes =
        Int.fdiv (msUntilToday 79200000 0 15) msPerMinute ∧
      (⟨-22, -45, -1305, true⟩ : TimeUntil).isPast = true :=
  (c3_wraparound_rule 79200000 "00:15" 0 15 ⟨-22, -45, -1305, true⟩
    (by decide) (by decide)).2.1 (by decide)

/-- A cancelled interval never runs its callback again: no tick after
`clearInterval` notifies. -/
theorem countdownTicks_cancelled (perm : Bool) (b : String) (ts : List Int) :
    countdownTicks perm b ts false = 0 := by
  induction ts with
  | nil => rfl
  | cons t ts ih => simpa [countdownTicks] using ih

/-- A tick that created a notification also returned `false`. -/
theorem updateCountdown_notified_stops (perm : Bool) (t : Int) (b : String)
    (step : CountdownStep) (h : updateCountdown perm t b = some step)
    (hn : step.notified = true) : step.shouldContinue = false := by
  unfold updateCountdown at h
  cases hg : getTimeUntilBedtime t b with
  | none => rw [hg] at h; simp at h
  | some r =>
    rw [hg] at h
    simp only [Option.map_some'] at h
    obtain rfl : _ = step := Option.some.inj h
    split_ifs at hn ⊢
    all_goals simp_all [sendBedtimeNotification]

/-- Without granted permission no tick ever creates a notification. -/
theorem updateCountdown_no_perm (t : Int) (b : String) (step : CountdownStep)
    (h : updateCountdown false t b = some step) : step.notified = false := by
  unfold updateCountdown at h
  cases hg : getTimeUntilBedtime t b with
  | none => rw [hg] at h; simp at h
  | some r =>
    rw [hg] at h
    simp only [Option.map_some'] at h
    obtain rfl : _ = step := Option.some.inj h
    split_ifs <;> simp_all [sendBedtimeNotification]

/-- Along any tick sequence at most one notification is created. -/
theorem countdownTicks_le_one (perm : Bool) (b : String) (ticks : List Int) :
    ∀ alive, countdownTicks perm b ticks alive ≤ 1 := by
  induction ticks with
  | nil => intro alive; cases alive <;> simp [countdownTicks]
  | cons t ts ih =>
    intro alive
    cases alive
    · simp [countdownTicks_cancelled]
    · cases hu : updateCountdown perm t b with
      | none =>
        simp only [countdownTicks, hu]
        exact ih true
      | some step =>
        simp only [countdownTicks, hu]
        by_cases hn : step.notified = true
        · have hs := updateCountdown_notified_stops perm t b step hu hn
          simp [hn, hs, countdownTicks_cancelled]
        · simp only [hn, if_false]
          simpa using ih step.shouldContinue

/-- With permission not granted, no notification is ever created. -/
theorem countdownTicks_no_perm (b : String) (ticks : List Int) :
    ∀ alive, countdownTicks false b ticks alive = 0 := by
  induction ticks with
  | nil =>
    intro alive
    cases alive
    all_goals rfl
  | cons t ts ih =>
    intro alive
    cases alive
    · exact countdownTicks_cancelled false b (t :: ts)
    · cases hu : updateCountdown false t b with
      | none =>
        simp only [countdownTicks, hu]
        exact ih true
      | some step =>
        have hn := updateCountdown_no_perm t b step hu
        simp only [countdownTicks, hu, hn, if_false]
        simpa using ih step.shouldContinue

/-- C4: for any displayed candidate, over any sequence of countdown
ticks the bedtime notification fires at most once; it fires only with
previously granted permission; and the tick on which the remaining time
is exactly zero notifies (when permitted), returns `false`, and — the
interval being cancelled — no later tick fires another notification,
so the whole run creates exactly one. -/
theorem c4_notification_fires_at_most_once (perm : Bool) (b : String) (ticks : List Int) :
    countdownTicks perm b ticks true ≤ 1 ∧
    (perm = false → countdownTicks perm b ticks true = 0) ∧
    (∀ t ts r, getTimeUntilBedtime t b = some r → r.isPast = false →
      r.totalMinutes = 0 →
      updateCountdown perm t b =
        some { display := CountdownDisplay.due, notified := perm, shouldContinue := false } ∧
      (perm = true → countdownTicks perm b (t :: ts) true = 1)) := by
  refine ⟨countdownTicks_le_one perm b ticks true, ?_, ?_⟩
  · rintro rfl
    exact countdownTicks_no_perm b ticks true
  · intro t ts r hr hpast hzero
    have hu : updateCountdown perm t b =
        some { display := CountdownDisplay.due, notified := perm, shouldContinue := false } := by
      simp [updateCountdown, hr, hpast, hzero, sendBedtimeNotification]
    refine ⟨hu, ?_⟩
    rintro rfl
    simp [countdownTicks, hu, countdownTicks_cancelled]

/-- C4 witness: a candidate `"22:00"` whose tick at exactly 22:00:00.000
notifies once; a later tick adds nothing. -/
theorem c4_notification_fires_at_most_once_witness :
    updateCountdown true 79200000 "22:00" =
      some { display := CountdownDisplay.due, notified := true, shouldContinue := false } ∧
    (true = true → countdownTicks true "22:00" [79200000, 79260000] true = 1) :=
  (c4_notification_fires_at_most_once true "22:00" [79200000, 79260000]).2.2
    79200000 [79260000] ⟨0, 0, 0, false⟩ (by decide) (by decide) (by decide)

/-- Folding `createResultCardTimer` adds one live timer per listed
bedtime: the live count for `b` grows by the number of occurrences of
`b` in the list. -/
theorem liveTimersFor_foldl (bedtimes : List String) (s : TimerState) (b : String) :
    liveTimersFor (bedtimes.foldl createResultCardTimer s) b =
      liveTimersFor s b + bedtimes.count b := by
  induction bedtimes generalizing s with
  | nil => simp [List.foldl_nil]
  | cons x xs ih =>
    rw [List.foldl_cons, ih]
    have hstep : liveTimersFor (createResultCardTimer s x) b =
        liveTimersFor s b + (if x = b then 1 else 0) := by
      by_cases hxb : x = b
      · subst hxb
        simp [liveTimersFor, createResultCardTimer, List.filter_append]
      · simp [liveTimersFor, createResultCardTimer, List.filter_append, hxb]
    rw [hstep, List.count_cons]
    by_cases hxb : x = b
    · simp [hxb]
      try omega
    · simp [hxb]
      try omega

/-- When every live handle is recorded in `countdownIntervals`, the
clearing prefix of `displayResults` cancels all of them and empties
the mapping. -/
theorem clearAllIntervals_no_leak (s : TimerState)
    (hnl : ∀ p ∈ s.live, (s.countdownIntervals.any fun q => q.2 == p.1) = true) :
    (clearAllIntervals s).live = [] ∧ (clearAllIntervals s).countdownIntervals = [] := by
  refine ⟨?_, rfl⟩
  simp only [clearAllIntervals]
  rw [List.filter_eq_nil_iff]
  intro p hp
  simp [hnl p hp]

/-- C5 counterexample: two options of one response carrying the same
bedtime string `"23:00"` leave TWO live timers for that bedtime after
`displayResults` (the second `countdownIntervals` assignment overwrites
the first handle, which stays live untracked), violating the claimed
at-most-one-live-timer-per-bedtime invariant. -/
theorem c5_duplicate_bedtime_counterexample :
    liveTimersFor (displayResultsTimers ⟨[], [], 0⟩ ["23:00", "23:00"]) "23:00" = 2 := by
  decide

/-- C5 amended: provided every live timer is recorded in the mapping
(no leak, as is the case along duplicate-free histories) and the
response's bedtime strings are pairwise distinct, `displayResults`
cancels every previously scheduled interval and empties the mapping
before creating new ones, and afterwards at most one live timer exists
per distinct bedtime string. -/
theorem c5_timer_invariant_amended (s : TimerState) (bedtimes : List String)
    (hnl : ∀ p ∈ s.live, (s.countdownIntervals.any fun q => q.2 == p.1) = true)
    (hdup : bedtimes.Nodup) :
    (clearAllIntervals s).live = [] ∧
    (clearAllIntervals s).countdownIntervals = [] ∧
    ∀ b, liveTimersFor (displayResultsTimers s bedtimes) b ≤ 1 := by
  obtain ⟨hl, hi⟩ := clearAllIntervals_no_leak s hnl
  refine ⟨hl, hi, fun b => ?_⟩
  rw [displayResultsTimers, liveTimersFor_foldl]
  have h0 : liveTimersFor (clearAllIntervals s) b = 0 := by
    simp [liveTimersFor, hl]
  rw [h0]
  simpa using List.nodup_iff_count_le_one.mp hdup b

/-- C5 witness: from a state with one tracked timer, rendering a
duplicate-free response clears the old timer and leaves at most one
live timer per bedtime. -/
theorem c5_timer_invariant_amended_witness :
    (clearAllIntervals ⟨[("21:30", 0)], [(0, "21:30")], 1⟩).live = [] ∧
      liveTimersFor
        (displayResultsTimers ⟨[("21:30", 0)], [(0, "21:30")], 1⟩ ["22:45", "00:15"])
        "22:45" ≤ 1 :=
  ⟨(c5_timer_invariant_amended ⟨[("21:30", 0)], [(0, "21:30")], 1⟩ ["22:45", "00:15"]
      (by decide) (by decide)).1,
   (c5_timer_invariant_amended ⟨[("21:30", 0)], [(0, "21:30")], 1⟩ ["22:45", "00:15"]
      (by decide) (by decide)).2.2 "22:45"⟩

/-- C6: the client aborts after exactly 60000 ms; a hung server, a late
response and a late network failure all surface the distinct cold-start
timeout message; an early network failure surfaces the connectivity
message; and the two messages differ.  On the event model every fetch
outcome yields a definite result — the call never hangs. -/
theorem c6_timeout_and_messages :
    REQUEST_TIMEOUT_MS = 60000 ∧
    calculateBedtimes FetchOutcome.noSettlement = CalcOutcome.failure timeoutMessage ∧
    (∀ arrival status detail, REQUEST_TIMEOUT_MS ≤ arrival →
      calculateBedtimes (FetchOutcome.response arrival status detail) =
        CalcOutcome.failure timeoutMessage) ∧
    (∀ arrival, REQUEST_TIMEOUT_MS ≤ arrival →
      calculateBedtimes (FetchOutcome.networkFailure arrival) =
        CalcOutcome.failure timeoutMessage) ∧
    (∀ arrival, arrival < REQUEST_TIMEOUT_MS →
      calculateBedtimes (FetchOutcome.networkFailure arrival) =
        CalcOutcome.failure connectivityMessage) ∧
    timeoutMessage ≠ connectivityMessage := by
  refine ⟨rfl, by decide, ?_, ?_, ?_, by decide⟩
  · intro arrival status detail h
    simp only [calculateBedtimes, fetchAndCheck]
    rw [if_neg (Nat.not_lt.mpr h)]
    decide
  · intro arrival h
    simp only [calculateBedtimes, fetchAndCheck]
    rw [if_neg (Nat.not_lt.mpr h)]
    decide
  · intro arrival h
    simp only [calculateBedtimes, fetchAndCheck]
    rw [if_pos h]
    decide

/-- C6 witness: a response arriving exactly at the 60 s bound is
reported as the cold-start timeout; an early network failure is
reported as the connectivity error. -/
theorem c6_timeout_and_messages_witness :
    calculateBedtimes (FetchOutcome.response 60000 503 none) =
        CalcOutcome.failure timeoutMessage ∧
      calculateBedtimes (FetchOutcome.networkFailure 30000) =
        CalcOutcome.failure connectivityMessage :=
  ⟨c6_timeout_and_messages.2.2.1 60000 503 none (by decide),
   c6_timeout_and_messages.2.2.2.2.1 30000 (by decide)⟩

/-- C7 counterexample: a non-2xx response whose body carries a PRESENT
but empty `detail` field.  The claim requires the raised message to be
that detail value (the empty string); the code's `errorData.detail ||`
treats the empty string as falsy and synthesizes `API error: 500`
instead. -/
theorem c7_empty_detail_counterexample :
    calculateBedtimes (FetchOutcome.response 0 500 (some "")) =
      CalcOutcome.failure "API error: 500" := by
  decide

/-- `Nat.digitChar` on a value below 16 never produces the letter `N`
(its outputs are the hexadecimal digit characters). -/
theorem digitChar_lt_ne_N (k : Nat) (hk : k < 16) : Nat.digitChar k ≠ 'N' := by
  interval_cases k
  all_goals decide

/-- The base-10 digit expansion of a number never contains the letter
`N`. -/
theorem toDigitsCore_no_N (fuel n : Nat) (acc : List Char)
    (hacc : 'N' ∉ acc) : 'N' ∉ Nat.toDigitsCore 10 fuel n acc := by
  induction fuel generalizing n acc with
  | zero => simpa [Nat.toDigitsCore] using hacc
  | succ fuel ih =>
    have hd : Nat.digitChar (n % 10) ≠ 'N' :=
      digitChar_lt_ne_N (n % 10) (Nat.lt_trans (Nat.mod_lt n (by norm_num)) (by norm_num))
    simp only [Nat.toDigitsCore]
    split_ifs
    · intro hmem
      rcases List.mem_cons.mp hmem with heq | hmem2
      · exact hd heq.symm
      · exact hacc hmem2
    · refine ih _ _ ?_
      intro hmem
      rcases List.mem_cons.mp hmem with heq | hmem2
      · exact hd heq.symm
      · exact hacc hmem2

/-- Every character of a prefix occurs in the list. -/
theorem isPrefixOfChars_mem (pat l : List Char) (hp : isPrefixOfChars pat l = true) :
    ∀ c ∈ pat, c ∈ l := by
  induction pat generalizing l with
  | nil =>
    intro c hc
    simp at hc
  | cons p ps ih =>
    cases l with
    | nil => simp [isPrefixOfChars] at hp
    | cons d ds =>
      simp only [isPrefixOfChars, Bool.and_eq_true, beq_iff_eq] at hp
      obtain ⟨rfl, h2⟩ := hp
      intro c hc
      rcases List.mem_cons.mp hc with rfl | hc2
      · exact List.mem_cons_self _ _
      · exact List.mem_cons_of_mem _ (ih ds h2 c hc2)

/-- Every character of an occurring substring occurs in the list. -/
theorem isInfixOfChars_mem (pat l : List Char) (hp : isInfixOfChars pat l = true) :
    ∀ c ∈ pat, c ∈ l := by
  induction l with
  | nil =>
    intro c hc
    exact isPrefixOfChars_mem pat [] (by simpa [isInfixOfChars] using hp) c hc
  | cons d ds ih =>
    simp only [isInfixOfChars, Bool.or_eq_true] at hp
    rcases hp with hp | hp
    · exact isPrefixOfChars_mem _ _ hp
    · intro c hc
      exact List.mem_cons_of_mem _ (ih hp c hc)

/-- A synthesized `API error: <status>` message is never the literal
connectivity-failure message `Failed to fetch`. -/
theorem apiError_ne_failedToFetch (status : Nat) :
    ("API error: " ++ toString status) ≠ "Failed to fetch" := by
  intro hstr
  have h2 := congrArg String.data hstr
  rw [String.data_append] at h2
  have ha : ("API error: " : String).data =
      ['A', 'P', 'I', ' ', 'e', 'r', 'r', 'o', 'r', ':', ' '] := rfl
  have hf : ("Failed to fetch" : String).data =
      ['F', 'a', 'i', 'l', 'e', 'd', ' ', 't', 'o', ' ', 'f', 'e', 't', 'c', 'h'] := rfl
  rw [ha, hf, List.cons_append] at h2
  injection h2 with h3 _
  exact absurd h3 (by decide)

/-- A synthesized `API error: <status>` message never contains the
substring `NetworkError`. -/
theorem apiError_no_networkError (status : Nat) :
    jsIncludes ("API error: " ++ toString status) "NetworkError" = false := by
  cases hb : jsIncludes ("API error: " ++ toString status) "NetworkError" with
  | false => rfl
  | true =>
    exfalso
    have hinf : isInfixOfChars ("NetworkError".toList)
        (("API error: " ++ toString status).toList) = true := by
      simpa [jsIncludes] using hb
    have hN : 'N' ∈ ("API error: " ++ toString status).toList :=
      isInfixOfChars_mem _ _ hinf 'N' (by decide)
    have hdata : ("API error: " ++ toString status).toList =
        ("API error: " : String).data ++ Nat.toDigits 10 status := by
      show ("API error: " ++ toString status).data = _
      rw [String.data_append]
      rfl
    rw [hdata] at hN
    rcases List.mem_append.mp hN with h1 | h1
    · exact absurd h1 (by decide)
    · exact toDigitsCore_no_N (status + 1) status [] (by simp) h1

/-- C7 amended: for a pre-timeout non-2xx response, the raised message
is the body's `detail` field when that field is present and non-empty
(and not itself shaped like a connectivity failure, which the `catch`
clause rewraps), and the synthesized `API error: <status>` when the
field is absent or empty. -/
theorem c7_error_message_amended (arrival status : Nat) (detail : Option String)
    (harr : arrival < REQUEST_TIMEOUT_MS)
    (hstatus : ¬(200 ≤ status ∧ status ≤ 299)) :
    ((detail = none ∨ detail = some "") →
      calculateBedtimes (FetchOutcome.response arrival status detail) =
        CalcOutcome.failure ("API error: " ++ toString status)) ∧
    (∀ s, detail = some s → s ≠ "" → s ≠ "Failed to fetch" →
      jsIncludes s "NetworkError" = false →
      calculateBedtimes (FetchOutcome.response arrival status detail) =
        CalcOutcome.failure s) := by
  constructor
  · intro hdet
    have hmsg : jsStringOr detail ("API error: " ++ toString status) =
        "API error: " ++ toString status := by
      rcases hdet with rfl | rfl <;> simp [jsStringOr]
    simp only [calculateBedtimes, fetchAndCheck]
    rw [if_pos harr, if_neg hstatus]
    simp only [hmsg]
    rw [if_neg (by decide : ¬("Error" : String) = "AbortError")]
    rw [if_neg ?_]
    simp only [decide_eq_false (apiError_ne_failedToFetch status),
      apiError_no_networkError status, Bool.or_false]
    simp
  · intro s hs hne hft hnw
    subst hs
    have hmsg : jsStringOr (some s) ("API error: " ++ toString status) = s := by
      simp [jsStringOr, hne]
    simp only [calculateBedtimes, fetchAndCheck]
    rw [if_pos harr, if_neg hstatus]
    simp only [hmsg]
    rw [if_neg (by decide : ¬("Error" : String) = "AbortError")]
    rw [if_neg ?_]
    simp only [decide_eq_false hft, hnw, Bool.or_false]
    simp

/-- C7 witness: a 500 response with a meaningful `detail` surfaces the
detail verbatim; a 500 response with no `detail` surfaces the
synthesized message. -/
theorem c7_error_message_amended_witness :
    calculateBedtimes (FetchOutcome.response 0 500 (some "Invalid wake time format")) =
        CalcOutcome.failure "Invalid wake time format" ∧
      calculateBedtimes (FetchOutcome.response 0 500 none) =
        CalcOutcome.failure ("API error: " ++ toString 500) :=
  ⟨(c7_error_message_amended 0 500 (some "Invalid wake time format") (by decide)
      (by decide)).2 "Invalid wake time format" rfl (by decide) (by decide) (by decide),
   (c7_error_message_amended 0 500 none (by decide) (by decide)).1 (Or.inl rfl)⟩

/-- C8: for bedtime `"22:45"`, wake time `"07:30"`, 6 cycles and any
current timestamp, the exported record's DTEND and DTSTART differ by
exactly the wake-minus-bedtime span modulo 24 hours — 8 h 45 m, i.e.
31500000 ms — and the alarm trigger is exactly 15 minutes (900000 ms)
before DTSTART; the DTSTAMP echoes the fixed timestamp.  The function
is deterministic by construction: the record depends only on
(bedtime, wake time, cycles, now). -/
theorem c8_ics_span_and_alarm (now : Int) (r : ICSRecord)
    (h : generateICSFile now "22:45" "07:30" 6 = some r) :
    r.dtend - r.dtstart = 31500000 ∧
    r.alarm = r.dtstart - 900000 ∧
    r.dtstamp = now ∧
    r.cycles = 6 := by
  have hp1 : parseHHMM "22:45" = some (22, 45) := by decide
  have hp2 : parseHHMM "07:30" = some (7, 30) := by decide
  simp only [generateICSFile, hp1, hp2] at h
  obtain rfl : _ = r := Option.some.inj h
  have hmod : ∀ x : Int, Int.emod x 86400000 = x % 86400000 := fun _ => rfl
  dsimp only
  simp only [msPerDay, msPerMinute, hmod]
  split_ifs
  · refine ⟨by omega, by omega, ?_, ?_⟩
    all_goals trivial
  · refine ⟨by omega, by omega, ?_, ?_⟩
    all_goals trivial

/-- C8 witness: at timestamp 0 the record is fully concrete and shows
the 8 h 45 m span and the 15-minute alarm offset. -/
theorem c8_ics_span_and_alarm_witness :
    (⟨0, 81900000, 113400000, 81000000, 6⟩ : ICSRecord).dtend -
        (⟨0, 81900000, 113400000, 81000000, 6⟩ : ICSRecord).dtstart = 31500000 ∧
      (⟨0, 81900000, 113400000, 81000000, 6⟩ : ICSRecord).alarm =
        (⟨0, 81900000, 113400000, 81000000, 6⟩ : ICSRecord).dtstart - 900000 ∧
      (⟨0, 81900000, 113400000, 81000000, 6⟩ : ICSRecord).dtstamp = 0 ∧
      (⟨0, 81900000, 113400000, 81000000, 6⟩ : ICSRecord).cycles = 6 :=
  c8_ics_span_and_alarm 0 ⟨0, 81900000, 113400000, 81000000, 6⟩ (by decide)
